import Mathlib

/-!
Verification of the command-confirmation protocol of the magic_slider
camera-control service (src/app.py).

The embedding models Python dictionaries as association lists over string
keys, JSON scalar values as an inductive of strings and integers, and the
two core routines:

* `handle_camera_inquiry` — the inquiry handler that compares a device
  status report against the last-sent settings, records the outcome in the
  shared store, and builds the consolidated result message;
* `publish_batch_messages` — the retry orchestrator that publishes the
  command, triggers the inquiry round trip, polls the stored outcome, and
  retries up to a bound while emitting UI notifications.

The asynchronous inquiry round trip is abstracted by a function
`replies : Nat → Option Reply` giving the device report (if any) that the
handler processed during the fixed wait of attempt `i`.
-/

set_option autoImplicit false

namespace MagicSlider

/-- A JSON scalar value as stored in the settings dictionaries: either a
string or an integer (Python `str` / `int`). -/
inductive Val where
  | VStr (s : String)
  | VInt (n : Int)
deriving DecidableEq, Repr

open Val

/-- Python `str(v)` on a scalar value. -/
def valToStr : Val → String
  | VStr s => s
  | VInt n => toString n

/-- Python `s.lower()` (modelled on the ASCII fragment, which covers every
value the comparison sees). -/
def strLower (s : String) : String :=
  ⟨s.data.map Char.toLower⟩

/-- A Python dictionary with string keys, as an association list
(first binding of a key wins, matching dict lookup on duplicate-free
lists). -/
abbrev Dict (α : Type) := List (String × α)

/-- Python `d.get(k)` / `d[k]`: first value bound to `k`, if any. -/
def dget {α : Type} (k : String) : Dict α → Option α
  | [] => none
  | (k', v) :: rest => if k' == k then some v else dget k rest

/-- Python `d.get(k, dflt)`. -/
def dgetD {α : Type} (d : Dict α) (k : String) (dflt : α) : α :=
  (dget k d).getD dflt

/-- Python `d[k] = v`: replace the binding of `k` in place, or append a new
binding when `k` is absent. -/
def dictSet {α : Type} (k : String) (v : α) : Dict α → Dict α
  | [] => [(k, v)]
  | (k', w) :: rest =>
    if k' == k then (k, v) :: rest else (k', w) :: dictSet k v rest

/-- The last-sent record for one camera: the settings dictionary, which
also carries the `last_status` key once recorded. -/
abbrev Record := Dict Val

/-- A decoded device status report (JSON object). -/
abbrev Reply := Dict Val

/-- The shared `last_sent_messages` map, keyed by camera number. -/
abbrev Store := Dict Record

/-- `CameraController.get_camera_settings`: the settings dictionary built
from one CSV row (the four looked-up integers are parameters). -/
def get_camera_settings (iris exposuregain shutterspeed brightness : Int) :
    Record :=
  [("changeexposuremode", VStr "1"),
   ("exposuremode", VStr "manual"),
   ("iris", VInt iris),
   ("exposuregain", VInt exposuregain),
   ("shutterspeed", VInt shutterspeed),
   ("brightness", VInt brightness)]

/-- `handle_slider` marks the settings as pending before storing them:
`settings['last_status'] = 'pending'`. -/
def recordIntent (settings : Record) : Record :=
  dictSet "last_status" (VStr "pending") settings

/-- Does `startsWithChars pat l` hold the way Python string search treats a
candidate position: `pat` is an initial segment of `l`. -/
def startsWithChars : List Char → List Char → Bool
  | [], _ => true
  | _ :: _, [] => false
  | p :: ps, c :: cs => p == c && startsWithChars ps cs

/-- Python `pat in s` on strings: `pat` occurs contiguously in `s`. -/
def hasSubChars (pat : List Char) : List Char → Bool
  | [] => pat.isEmpty
  | c :: cs => startsWithChars pat (c :: cs) || hasSubChars pat cs

/-- Python `pat in topic` for strings. -/
def pyIn (pat s : String) : Bool :=
  hasSubChars pat.data s.data

/-- Python `s.split('.')` on the character list. -/
def splitDot : List Char → List (List Char)
  | [] => [[]]
  | c :: rest =>
    let r := splitDot rest
    if c == '.' then [] :: r
    else
      match r with
      | [] => [[c]]
      | h :: t => (c :: h) :: t

/-- Python `s.replace('camera', '')`: drop every occurrence of the
six-character pattern `camera`. -/
def replaceCam : List Char → List Char
  | 'c' :: 'a' :: 'm' :: 'e' :: 'r' :: 'a' :: rest => replaceCam rest
  | c :: rest => c :: replaceCam rest
  | [] => []

/-- `topic.split('.')[-1].replace('camera', '')` — the camera number
recovered from a topic or subject name. -/
def camFromTopic (topic : String) : String :=
  ⟨replaceCam ((splitDot topic.data).getLastD [])⟩

/-- The handler translation table `comparison_map`: device-reported field
name paired with the sent-setting name. -/
def comparison_map : List (String × String) :=
  [("ExposureMode", "exposuremode"),
   ("ExposureIris", "iris"),
   ("ExposureGain", "exposuregain"),
   ("ExposureExposureTime", "shutterspeed"),
   ("DigitalBrightLevel", "brightness")]

/-- One `sent`/`received` pair of the mismatch set. -/
structure MismatchPair where
  sent : String
  received : String
deriving DecidableEq, Repr

/-- The comparison made for one translation-table row: skipped when the
sent key is absent from the record, otherwise the lowercased string forms
of the sent value and of the reported value (missing report field defaults
to the empty string) are compared. -/
def mismatchAt (lastSent : Record) (received : Reply)
    (p : String × String) : Option (String × MismatchPair) :=
  match dget p.2 lastSent with
  | none => none
  | some sv =>
    let s := strLower (valToStr sv)
    let r := strLower (valToStr (dgetD received p.1 (VStr "")))
    if s == r then none else some (p.2, ⟨s, r⟩)

/-- The mismatch dictionary accumulated over the translation table. -/
def computeMismatches (lastSent : Record) (received : Reply) :
    Dict MismatchPair :=
  comparison_map.filterMap (mismatchAt lastSent received)

/-- `last_sent_messages[cam]['last_status'] = 'success' if not mismatches
else 'mismatch'` applied to one record. -/
def applyRecord (rec : Record) (received : Reply) : Record :=
  dictSet "last_status"
    (VStr (if (computeMismatches rec received).isEmpty then "success"
           else "mismatch")) rec

/-- The consolidated result message published on `cam_setting.camera{N}`. -/
structure ResultMsg where
  timestamp : Nat
  camera : String
  status : Option String
  mismatches : Option (Dict MismatchPair)
deriving DecidableEq, Repr

/-- `handle_camera_inquiry`: a `none` payload stands for a message whose
body failed JSON decoding, in which case the raised exception is caught and
logged (no state change, nothing published). Otherwise the handler looks up
the record for the camera taken from the subject, discards the message when
no (nonempty) record exists, and otherwise computes the mismatch set,
updates the stored `last_status`, and publishes the result message. -/
def handle_camera_inquiry (store : Store) (subject : String)
    (payload : Option Reply) (ts : Nat) : Store × Option ResultMsg :=
  match payload with
  | none => (store, none)
  | some received =>
    let cam := camFromTopic subject
    match dget cam store with
    | none => (store, none)
    | some rec =>
      if rec.isEmpty then (store, none)
      else
        let M := computeMismatches rec received
        (dictSet cam (applyRecord rec received) store,
         some { timestamp := ts
                camera := cam
                status := if M.isEmpty then some "All settings done" else none
                mismatches := if M.isEmpty then none else some M })

/-- Which of the three emission sites of `publish_status_to_ui` produced a
notification. -/
inductive NotifKind where
  | sending
  | progress
  | finalReport
deriving DecidableEq, Repr

/-- One WebSocket status update sent by `publish_status_to_ui`. -/
structure Notif where
  kind : NotifKind
  camera : String
  status : String
  retries_complete : Bool
  settings_applied : Bool
deriving DecidableEq, Repr

/-- The initial status update that disables the reapply button. -/
def sendingNotif (cam : String) : Notif :=
  ⟨.sending, cam, "Sending settings...", false, false⟩

/-- The per-attempt status update after an unconfirmed attempt. -/
def progressNotif (cam : String) (i m : Nat) : Notif :=
  ⟨.progress, cam,
   "Settings not confirmed (Attempt " ++ toString i ++ "/" ++ toString m ++ ")",
   false, false⟩

/-- The final status update after the retry loop. -/
def finalNotif (cam : String) (ok : Bool) : Notif :=
  ⟨.finalReport, cam,
   if ok then "Settings applied successfully" else "Settings mismatch detected",
   true, ok⟩

/-- `last_sent and last_sent.get('last_status') == 'success'` — the success
check the retry loop performs on the record it reads back from the store. -/
def checkSuccess (rec : Record) : Bool :=
  !rec.isEmpty && (dget "last_status" rec == some (VStr "success"))

/-- The observable effects of one `publish_batch_messages` run: the payloads
published on the command topic in order, the number of inquiry requests
published, the status updates emitted, whether the loop settled, and the
final state of the shared record. -/
structure ConfirmOut where
  cmds : List Record
  inqs : Nat
  notifs : List Notif
  settled : Bool
  finalRec : Record
deriving Repr

/-- The `while retry_count < max_retries and not settings_applied` loop of
`publish_batch_messages`. `fuel` is `max_retries - retry_count`, the number
of remaining loop iterations; `rec` is the shared record object (aliased by
`message` and by the store entry the inquiry handler mutates); `replies i`
is the device report the handler processed during the fixed wait of the
iteration with `retry_count = i`, if any. Each iteration publishes the
current record, and — on a confirmable topic — publishes an inquiry, lets
the handler run on any reply, re-reads the record, breaks on success, and
otherwise increments `retry_count`, emits the progress update and backs
off. On a non-confirmable topic the first iteration breaks after the single
publish. -/
def loopGo (confirmable : Bool) (cam : String) (maxRetries : Nat)
    (replies : Nat → Option Reply) (rec : Record) (retryCount : Nat) :
    Nat → ConfirmOut
  | 0 => ⟨[], 0, [], false, rec⟩
  | fuel + 1 =>
    if confirmable then
      let rec' := match replies retryCount with
        | none => rec
        | some r => applyRecord rec r
      if checkSuccess rec' then
        ⟨[rec], 1, [], true, rec'⟩
      else
        let rest := loopGo confirmable cam maxRetries replies rec'
          (retryCount + 1) fuel
        ⟨rec :: rest.cmds, 1 + rest.inqs,
         progressNotif cam (retryCount + 1) maxRetries :: rest.notifs,
         rest.settled, rest.finalRec⟩
    else
      ⟨[rec], 0, [], false, rec⟩

/-- `publish_batch_messages(topic, message, max_retries)`: derives the
camera number and confirmability from the topic, emits the initial
"Sending settings..." update on confirmable topics, runs the retry loop,
and emits the final update (which re-enables the reapply button) on
confirmable topics. -/
def publish_batch_messages (topic : String) (message : Record)
    (replies : Nat → Option Reply) (maxRetries : Nat) : ConfirmOut :=
  let confirmable := pyIn "colour-control" topic
  let cam := camFromTopic topic
  let out := loopGo confirmable cam maxRetries replies message 0 maxRetries
  { out with
    notifs :=
      (if confirmable then [sendingNotif cam] else []) ++ out.notifs ++
      (if confirmable then [finalNotif cam out.settled] else []) }

/-! ### Dictionary lemmas -/

theorem dget_dictSet_self {α : Type} (k : String) (v : α) (d : Dict α) :
    dget k (dictSet k v d) = some v := by
  induction d with
  | nil => simp [dget, dictSet]
  | cons p t ih =>
    obtain ⟨k', w⟩ := p
    by_cases h : (k' == k) = true
    · simp [dictSet, h, dget]
    · simp [dictSet, h, dget, ih]

theorem dget_dictSet_ne {α : Type} {k k' : String} (v : α) (d : Dict α)
    (h : k' ≠ k) : dget k' (dictSet k v d) = dget k' d := by
  have hk : (k == k') = false := beq_eq_false_iff_ne.mpr (Ne.symm h)
  induction d with
  | nil => simp [dget, dictSet, hk]
  | cons p t ih =>
    obtain ⟨k'', w⟩ := p
    by_cases h2 : (k'' == k) = true
    · have : k'' = k := by simpa [beq_iff_eq] using h2
      subst this
      simp [dictSet, dget, hk]
    · simp [dictSet, h2, dget, ih]

theorem dictSet_isEmpty {α : Type} (k : String) (v : α) (d : Dict α) :
    (dictSet k v d).isEmpty = false := by
  cases d with
  | nil => simp [dictSet]
  | cons p t =>
    obtain ⟨k', w⟩ := p
    by_cases h : (k' == k) = true <;> simp [dictSet, h]

/-! ### Mismatch-computation lemmas -/

theorem filterMapCongr {α β : Type} {f g : α → Option β} :
    ∀ l : List α, (∀ a ∈ l, f a = g a) → l.filterMap f = l.filterMap g := by
  intro l
  induction l with
  | nil => intro _; rfl
  | cons a t ih =>
    intro h
    simp only [List.filterMap_cons, h a (by simp), ih fun b hb => h b (by simp [hb])]

/-- The translation table never mentions the status key. -/
theorem comparison_map_sent_keys :
    ∀ p ∈ comparison_map, p.2 ≠ "last_status" := by decide

/-- The mismatch set depends on the record only through the lookups of the
sent-setting names. -/
theorem computeMismatches_congr_rec {rec₁ rec₂ : Record} (r : Reply)
    (h : ∀ p ∈ comparison_map, dget p.2 rec₁ = dget p.2 rec₂) :
    computeMismatches rec₁ r = computeMismatches rec₂ r := by
  unfold computeMismatches
  exact filterMapCongr _ fun p hp => by simp only [mismatchAt, h p hp]

/-- The mismatch set depends on the reply only through the lookups of the
device-reported field names: reply key order is irrelevant. -/
theorem computeMismatches_congr_reply (rec : Record) {r₁ r₂ : Reply}
    (h : ∀ p ∈ comparison_map, dget p.1 r₁ = dget p.1 r₂) :
    computeMismatches rec r₁ = computeMismatches rec r₂ := by
  unfold computeMismatches
  exact filterMapCongr _ fun p hp => by simp only [mismatchAt, dgetD, h p hp]

/-- The status write of the inquiry handler leaves every other key of the
record unchanged. -/
theorem dget_applyRecord_ne {k : String} (rec : Record) (r : Reply)
    (hk : k ≠ "last_status") :
    dget k (applyRecord rec r) = dget k rec :=
  dget_dictSet_ne _ _ hk

/-- Recomputing the mismatch set after the status write gives the same
result: the compared keys are untouched. -/
theorem computeMismatches_applyRecord (rec : Record) (r₀ r : Reply) :
    computeMismatches (applyRecord rec r₀) r = computeMismatches rec r :=
  computeMismatches_congr_rec r fun p hp =>
    dget_applyRecord_ne rec r₀ (comparison_map_sent_keys p hp)

/-! ### Success-check lemmas -/

theorem checkSuccess_of_status {rec : Record}
    (h : dget "last_status" rec ≠ some (VStr "success")) :
    checkSuccess rec = false := by
  have : (dget "last_status" rec == some (VStr "success")) = false := by
    simpa [beq_iff_eq] using h
  simp [checkSuccess, this]

theorem dget_status_applyRecord (rec : Record) (r : Reply) :
    dget "last_status" (applyRecord rec r) =
      some (VStr (if (computeMismatches rec r).isEmpty then "success"
                  else "mismatch")) :=
  dget_dictSet_self _ _ _

theorem checkSuccess_applyRecord_of_mismatch {rec : Record} {r : Reply}
    (h : computeMismatches rec r ≠ []) :
    checkSuccess (applyRecord rec r) = false := by
  apply checkSuccess_of_status
  rw [dget_status_applyRecord]
  have : (computeMismatches rec r).isEmpty = false := by
    simpa [List.isEmpty_iff] using h
  simp [this]

theorem checkSuccess_applyRecord_of_match {rec : Record} {r : Reply}
    (h : computeMismatches rec r = []) :
    checkSuccess (applyRecord rec r) = true := by
  have h1 : (computeMismatches rec r).isEmpty = true := by simp [h]
  have h2 : dget "last_status" (applyRecord rec r) = some (VStr "success") := by
    rw [dget_status_applyRecord, h1]; rfl
  have h3 : (applyRecord rec r).isEmpty = false := by
    unfold applyRecord; exact dictSet_isEmpty _ _ _
  simp [checkSuccess, h2, h3]

/-! ### Retry-loop lemmas -/

/-- In a run on a confirmable topic where every processed device report
mismatches the recorded configuration, every remaining iteration publishes
the command once and emits one progress update, and the loop never
settles. -/
theorem loopGo_never_success (cam : String) (m : Nat)
    (replies : Nat → Option Reply) (rec0 : Record)
    (H : ∀ i r, replies i = some r → computeMismatches rec0 r ≠ []) :
    ∀ (fuel rc : Nat) (rec : Record),
      (∀ p ∈ comparison_map, dget p.2 rec = dget p.2 rec0) →
      dget "last_status" rec ≠ some (VStr "success") →
      (loopGo true cam m replies rec rc fuel).cmds.length = fuel ∧
      (loopGo true cam m replies rec rc fuel).settled = false ∧
      (loopGo true cam m replies rec rc fuel).notifs.length = fuel ∧
      ∀ n ∈ (loopGo true cam m replies rec rc fuel).notifs,
        n.kind = NotifKind.progress := by
  intro fuel
  induction fuel with
  | zero =>
    intro rc rec hcfg hst
    simp [loopGo]
  | succ fuel ih =>
    intro rc rec hcfg hst
    cases hrep : replies rc with
    | none =>
      have hcs : checkSuccess rec = false := checkSuccess_of_status hst
      obtain ⟨h1, h2, h3, h4⟩ := ih (rc + 1) rec hcfg hst
      simp only [loopGo, hrep, if_true, hcs, Bool.false_eq_true, if_false]
      refine ⟨by simpa using h1, h2, by simpa using h3, ?_⟩
      intro n hn
      rcases List.mem_cons.mp hn with h | h
      · subst h; rfl
      · exact h4 n h
    | some r =>
      have hM : computeMismatches rec r ≠ [] := by
        rw [computeMismatches_congr_rec r hcfg]
        exact H rc r hrep
      have hcs : checkSuccess (applyRecord rec r) = false :=
        checkSuccess_applyRecord_of_mismatch hM
      have hcfg' : ∀ p ∈ comparison_map,
          dget p.2 (applyRecord rec r) = dget p.2 rec0 := fun p hp => by
        rw [dget_applyRecord_ne rec r (comparison_map_sent_keys p hp)]
        exact hcfg p hp
      have hst' : dget "last_status" (applyRecord rec r) ≠
          some (VStr "success") := by
        rw [dget_status_applyRecord]
        have he : (computeMismatches rec r).isEmpty = false := by
          simpa [List.isEmpty_iff] using hM
        simp [he]
      obtain ⟨h1, h2, h3, h4⟩ := ih (rc + 1) (applyRecord rec r) hcfg' hst'
      simp only [loopGo, hrep, if_true, hcs, Bool.false_eq_true, if_false]
      refine ⟨by simpa using h1, h2, by simpa using h3, ?_⟩
      intro n hn
      rcases List.mem_cons.mp hn with h | h
      · subst h; rfl
      · exact h4 n h

theorem getLast?_append_singleton {α : Type} (l : List α) (a : α) :
    (l ++ [a]).getLast? = some a := by
  rw [List.getLast?_append_cons]; rfl

/-! ### Claim theorems -/

/-- **C1.** For every device and configuration whose inquiry replies never
match the recorded configuration (including when no reply arrives), a
confirmable run performs exactly `maxRetries` command publishes, terminates
unsettled, and its last emitted notification has `settings_applied = false`
and `retries_complete = true`. -/
theorem c1_never_matching_reply_exhausts_attempts
    (topic : String) (rec0 : Record) (replies : Nat → Option Reply) (m : Nat)
    (hconf : pyIn "colour-control" topic = true)
    (hst : dget "last_status" rec0 = some (VStr "pending"))
    (H : ∀ i r, replies i = some r → computeMismatches rec0 r ≠ []) :
    (publish_batch_messages topic rec0 replies m).cmds.length = m ∧
    (publish_batch_messages topic rec0 replies m).settled = false ∧
    ∃ n, (publish_batch_messages topic rec0 replies m).notifs.getLast? =
        some n ∧ n.retries_complete = true ∧ n.settings_applied = false := by
  have hst' : dget "last_status" rec0 ≠ some (VStr "success") := by
    rw [hst]; simp
  obtain ⟨h1, h2, h3, h4⟩ :=
    loopGo_never_success (camFromTopic topic) m replies rec0 H m 0 rec0
      (fun p _ => rfl) hst'
  simp only [publish_batch_messages, hconf, if_true]
  refine ⟨h1, h2, finalNotif (camFromTopic topic) false, ?_, rfl, rfl⟩
  rw [h2, getLast?_append_singleton]

/-- Concrete instance of `c1_never_matching_reply_exhausts_attempts`:
camera 2, the CSV settings row `(5, 3, 100, 50)`, three attempts, the
device reporting an empty status object each time. -/
theorem c1_witness :
    (publish_batch_messages "colour-control.camera2"
        (recordIntent (get_camera_settings 5 3 100 50))
        (fun _ => some []) 3).cmds.length = 3 ∧
    (publish_batch_messages "colour-control.camera2"
        (recordIntent (get_camera_settings 5 3 100 50))
        (fun _ => some []) 3).settled = false ∧
    ∃ n, (publish_batch_messages "colour-control.camera2"
        (recordIntent (get_camera_settings 5 3 100 50))
        (fun _ => some []) 3).notifs.getLast? =
        some n ∧ n.retries_complete = true ∧ n.settings_applied = false :=
  c1_never_matching_reply_exhausts_attempts "colour-control.camera2"
    (recordIntent (get_camera_settings 5 3 100 50)) (fun _ => some []) 3
    (by decide) (by decide)
    (fun i r h => by
      obtain rfl : ([] : Reply) = r := Option.some.inj h
      decide)

/-- **C2.** For every device and configuration whose first processed
inquiry reply matches the recorded configuration, the run settles within
one attempt: exactly one command publish, `settled = true`, and the stored
outcome for the device is `success`. -/
theorem c2_matching_reply_settles_first_attempt
    (topic : String) (rec0 : Record) (r : Reply) (replies : Nat → Option Reply)
    (m : Nat) (hconf : pyIn "colour-control" topic = true) (hm : 1 ≤ m)
    (h0 : replies 0 = some r) (hM : computeMismatches rec0 r = []) :
    (publish_batch_messages topic rec0 replies m).settled = true ∧
    (publish_batch_messages topic rec0 replies m).cmds.length = 1 ∧
    dget "last_status" (publish_batch_messages topic rec0 replies m).finalRec =
      some (VStr "success") := by
  obtain ⟨k, rfl⟩ : ∃ k, m = k + 1 := ⟨m - 1, by omega⟩
  have hcs : checkSuccess (applyRecord rec0 r) = true :=
    checkSuccess_applyRecord_of_match hM
  have hdg : dget "last_status" (applyRecord rec0 r) = some (VStr "success") := by
    rw [dget_status_applyRecord]; simp [hM]
  simp only [publish_batch_messages, hconf, if_true, loopGo, h0, hcs]
  exact ⟨trivial, rfl, hdg⟩

/-- Concrete instance of `c2_matching_reply_settles_first_attempt`: the
device echoes exactly the sent values on the first inquiry reply. -/
theorem c2_witness :
    (publish_batch_messages "colour-control.camera2"
        (recordIntent (get_camera_settings 5 3 100 50))
        (fun _ => some
          [("ExposureMode", Val.VStr "manual"), ("ExposureIris", Val.VInt 5),
           ("ExposureGain", Val.VInt 3), ("ExposureExposureTime", Val.VInt 100),
           ("DigitalBrightLevel", Val.VInt 50)]) 3).settled = true ∧
    (publish_batch_messages "colour-control.camera2"
        (recordIntent (get_camera_settings 5 3 100 50))
        (fun _ => some
          [("ExposureMode", Val.VStr "manual"), ("ExposureIris", Val.VInt 5),
           ("ExposureGain", Val.VInt 3), ("ExposureExposureTime", Val.VInt 100),
           ("DigitalBrightLevel", Val.VInt 50)]) 3).cmds.length = 1 ∧
    dget "last_status" (publish_batch_messages "colour-control.camera2"
        (recordIntent (get_camera_settings 5 3 100 50))
        (fun _ => some
          [("ExposureMode", Val.VStr "manual"), ("ExposureIris", Val.VInt 5),
           ("ExposureGain", Val.VInt 3), ("ExposureExposureTime", Val.VInt 100),
           ("DigitalBrightLevel", Val.VInt 50)]) 3).finalRec =
      some (Val.VStr "success") :=
  c2_matching_reply_settles_first_attempt "colour-control.camera2"
    (recordIntent (get_camera_settings 5 3 100 50)) _ _ 3
    (by decide) (by decide) rfl (by decide)

/-- **C6.** For every non-confirmable topic (no `colour-control` marker in
the topic name), a run with a positive retry budget performs exactly one
command publish, publishes no inquiry request, and emits no notifications
at all. -/
theorem c6_non_confirmable_single_publish
    (topic : String) (rec0 : Record) (replies : Nat → Option Reply) (m : Nat)
    (hconf : pyIn "colour-control" topic = false) (hm : 1 ≤ m) :
    (publish_batch_messages topic rec0 replies m).cmds.length = 1 ∧
    (publish_batch_messages topic rec0 replies m).inqs = 0 ∧
    (publish_batch_messages topic rec0 replies m).notifs = [] := by
  obtain ⟨k, rfl⟩ : ∃ k, m = k + 1 := ⟨m - 1, by omega⟩
  simp [publish_batch_messages, hconf, loopGo]

/-- Concrete instance of `c6_non_confirmable_single_publish`: a PTZ topic
is not confirmable. -/
theorem c6_witness :
    (publish_batch_messages "ptzcontrol.camera1"
        (recordIntent (get_camera_settings 5 3 100 50))
        (fun _ => none) 5).cmds.length = 1 ∧
    (publish_batch_messages "ptzcontrol.camera1"
        (recordIntent (get_camera_settings 5 3 100 50))
        (fun _ => none) 5).inqs = 0 ∧
    (publish_batch_messages "ptzcontrol.camera1"
        (recordIntent (get_camera_settings 5 3 100 50))
        (fun _ => none) 5).notifs = [] :=
  c6_non_confirmable_single_publish "ptzcontrol.camera1"
    (recordIntent (get_camera_settings 5 3 100 50)) (fun _ => none) 5
    (by decide) (by decide)

/-- **C7.** An inquiry reply arriving for a device with no confirmation
record is discarded without error: the store is unchanged and no result
message is published. -/
theorem c7_no_record_discards_reply
    (store : Store) (subject : String) (r : Reply) (ts : Nat)
    (h : dget (camFromTopic subject) store = none) :
    handle_camera_inquiry store subject (some r) ts = (store, none) := by
  simp only [handle_camera_inquiry, h]

/-- Concrete instance of `c7_no_record_discards_reply`: a reply from
camera 3 while only camera 2 has an active record. -/
theorem c7_witness :
    handle_camera_inquiry
      [("2", recordIntent (get_camera_settings 5 3 100 50))]
      "caminq.camera3" (some [("ExposureIris", Val.VInt 5)]) 7 =
    ([("2", recordIntent (get_camera_settings 5 3 100 50))], none) :=
  c7_no_record_discards_reply _ "caminq.camera3" _ 7 (by decide)

/-- **C8.** Every inquiry reply processed against an active record yields a
result message whose status is `"All settings done"` exactly when the
mismatch set is empty, whose mismatches field is null exactly when the
mismatch set is empty, and which always carries the timestamp and the
device identifier. -/
theorem c8_result_message_shape
    (store : Store) (subject : String) (r : Reply) (ts : Nat) (rec : Record)
    (h1 : dget (camFromTopic subject) store = some rec)
    (h2 : rec.isEmpty = false) :
    ∃ res, (handle_camera_inquiry store subject (some r) ts).2 = some res ∧
      (res.status = some "All settings done" ↔ computeMismatches rec r = []) ∧
      (res.mismatches = none ↔ computeMismatches rec r = []) ∧
      res.timestamp = ts ∧ res.camera = camFromTopic subject := by
  simp only [handle_camera_inquiry, h1, h2, Bool.false_eq_true, if_false]
  refine ⟨_, rfl, ?_, ?_, rfl, rfl⟩
  · cases hM : (computeMismatches rec r).isEmpty with
    | true => simp [hM, List.isEmpty_iff.mp hM]
    | false =>
      have hne : computeMismatches rec r ≠ [] := by
        simpa [List.isEmpty_iff] using hM
      simp [hM, hne]
  · cases hM : (computeMismatches rec r).isEmpty with
    | true => simp [hM, List.isEmpty_iff.mp hM]
    | false =>
      have hne : computeMismatches rec r ≠ [] := by
        simpa [List.isEmpty_iff] using hM
      simp [hM, hne]

/-- Concrete instance of `c8_result_message_shape`: camera 2 with an
active record and a fully mismatching (empty) report. -/
theorem c8_witness :
    ∃ res, (handle_camera_inquiry
        [("2", recordIntent (get_camera_settings 5 3 100 50))]
        "caminq.camera2" (some []) 42).2 = some res ∧
      (res.status = some "All settings done" ↔
        computeMismatches (recordIntent (get_camera_settings 5 3 100 50)) [] = []) ∧
      (res.mismatches = none ↔
        computeMismatches (recordIntent (get_camera_settings 5 3 100 50)) [] = []) ∧
      res.timestamp = 42 ∧ res.camera = camFromTopic "caminq.camera2" :=
  c8_result_message_shape _ "caminq.camera2" [] 42
    (recordIntent (get_camera_settings 5 3 100 50)) (by decide) (by decide)

/-- **C9.** A malformed inbound inquiry payload (body not decodable as
JSON, modelled as a `none` payload) is logged and discarded with no state
change: the store is untouched and no result message is published; the
handler returns normally. -/
theorem c9_malformed_payload_discarded
    (store : Store) (subject : String) (ts : Nat) :
    handle_camera_inquiry store subject none ts = (store, none) := rfl

/-! ### `str(int)` is never empty (needed for the missing-field claim) -/

theorem toDigitsCore_ne_nil (b : Nat) :
    ∀ (fuel n : Nat) (ds : List Char), ds ≠ [] →
      Nat.toDigitsCore b fuel n ds ≠ [] := by
  intro fuel
  induction fuel with
  | zero => intro n ds h; simpa [Nat.toDigitsCore] using h
  | succ fuel ih =>
    intro n ds h
    simp only [Nat.toDigitsCore]
    split
    · simp
    · exact ih _ _ (by simp)

theorem toDigits_ne_nil (b n : Nat) : Nat.toDigits b n ≠ [] := by
  show Nat.toDigitsCore b (n + 1) n [] ≠ []
  simp only [Nat.toDigitsCore]
  split
  · simp
  · exact toDigitsCore_ne_nil b _ _ _ (by simp)

theorem natRepr_data_ne_nil (n : Nat) : (Nat.repr n).data ≠ [] := by
  show (List.asString (Nat.toDigits 10 n)).data ≠ []
  simpa [List.asString] using toDigits_ne_nil 10 n

theorem intToString_data_ne_nil (i : Int) : (toString i).data ≠ [] := by
  cases i with
  | ofNat m => exact natRepr_data_ne_nil m
  | negSucc m =>
    show (("-" ++ Nat.repr (m + 1) : String)).data ≠ []
    simp [String.append]

theorem strLower_int_ne_empty (i : Int) : strLower (toString i) ≠ "" := by
  intro h
  have h2 : (toString i).data.map Char.toLower = ([] : List Char) :=
    congrArg String.data h
  exact intToString_data_ne_nil i (List.map_eq_nil_iff.mp h2)

/-- The sent-setting entries all survive the pending-status write of
`handle_slider`. -/
theorem dget_sent_recordIntent (iris exposuregain shutterspeed brightness : Int) :
    dget "exposuremode"
      (recordIntent (get_camera_settings iris exposuregain shutterspeed brightness)) =
      some (VStr "manual") ∧
    dget "iris"
      (recordIntent (get_camera_settings iris exposuregain shutterspeed brightness)) =
      some (VInt iris) ∧
    dget "exposuregain"
      (recordIntent (get_camera_settings iris exposuregain shutterspeed brightness)) =
      some (VInt exposuregain) ∧
    dget "shutterspeed"
      (recordIntent (get_camera_settings iris exposuregain shutterspeed brightness)) =
      some (VInt shutterspeed) ∧
    dget "brightness"
      (recordIntent (get_camera_settings iris exposuregain shutterspeed brightness)) =
      some (VInt brightness) := by
  refine ⟨?_, ?_, ?_, ?_, ?_⟩ <;>
    (rw [recordIntent, dget_dictSet_ne _ _ (by decide)];
     simp [get_camera_settings, dget])

/-- A translation-table row whose device field is missing from the reply
and whose sent value does not stringify to the empty string produces the
mismatch entry comparing the sent value against `""`. -/
theorem mismatchAt_missing (rec : Record) (r : Reply) (p : String × String)
    (sv : Val) (hsv : dget p.2 rec = some sv) (hr : dget p.1 r = none)
    (hne : strLower (valToStr sv) ≠ "") :
    mismatchAt rec r p = some (p.2, ⟨strLower (valToStr sv), ""⟩) := by
  have hs : (strLower (valToStr sv) ==
      strLower (valToStr (dgetD r p.1 (VStr "")))) = false := by
    simp only [dgetD, hr, Option.getD]
    exact beq_eq_false_iff_ne.mpr hne
  simp only [mismatchAt, hsv, hs, Bool.false_eq_true, if_false]
  simp [dgetD, hr, valToStr, strLower]

/-- **C10.** For every translation-table field omitted from a valid-JSON
reply while the corresponding setting is in the last-sent record, the
handler compares the missing field as the empty string: the mismatch set
gains the entry pairing the lowercased sent value with `""` and the stored
outcome becomes `mismatch` — the reply is not discarded. -/
theorem c10_missing_field_compared_as_empty
    (iris exposuregain shutterspeed brightness : Int) (r : Reply)
    (p : String × String) (hp : p ∈ comparison_map)
    (hr : dget p.1 r = none) :
    ∃ sv, dget p.2
        (recordIntent (get_camera_settings iris exposuregain shutterspeed brightness)) =
        some sv ∧
      (p.2, (⟨strLower (valToStr sv), ""⟩ : MismatchPair)) ∈
        computeMismatches
          (recordIntent (get_camera_settings iris exposuregain shutterspeed brightness)) r ∧
      dget "last_status"
        (applyRecord
          (recordIntent (get_camera_settings iris exposuregain shutterspeed brightness)) r) =
      some (VStr "mismatch") := by
  obtain ⟨he, hi, hg, hs, hb⟩ :=
    dget_sent_recordIntent iris exposuregain shutterspeed brightness
  have key : ∀ sv : Val,
      dget p.2 (recordIntent
        (get_camera_settings iris exposuregain shutterspeed brightness)) = some sv →
      strLower (valToStr sv) ≠ "" →
      ∃ sv', dget p.2 (recordIntent
          (get_camera_settings iris exposuregain shutterspeed brightness)) = some sv' ∧
        (p.2, (⟨strLower (valToStr sv'), ""⟩ : MismatchPair)) ∈
          computeMismatches (recordIntent
            (get_camera_settings iris exposuregain shutterspeed brightness)) r ∧
        dget "last_status" (applyRecord (recordIntent
          (get_camera_settings iris exposuregain shutterspeed brightness)) r) =
        some (VStr "mismatch") := by
    intro sv hsv hne
    have hmem : (p.2, (⟨strLower (valToStr sv), ""⟩ : MismatchPair)) ∈
        computeMismatches (recordIntent
          (get_camera_settings iris exposuregain shutterspeed brightness)) r :=
      List.mem_filterMap.mpr ⟨p, hp, mismatchAt_missing _ r p sv hsv hr hne⟩
    refine ⟨sv, hsv, hmem, ?_⟩
    rw [dget_status_applyRecord]
    have hie : (computeMismatches (recordIntent
        (get_camera_settings iris exposuregain shutterspeed brightness)) r).isEmpty
        = false := by
      simp [List.isEmpty_iff, List.ne_nil_of_mem hmem]
    simp [hie]
  have hp' := hp
  simp only [comparison_map, List.mem_cons, List.not_mem_nil, or_false] at hp'
  rcases hp' with rfl | rfl | rfl | rfl | rfl
  · exact key (VStr "manual") he (by decide)
  · exact key (VInt iris) hi (strLower_int_ne_empty iris)
  · exact key (VInt exposuregain) hg (strLower_int_ne_empty exposuregain)
  · exact key (VInt shutterspeed) hs (strLower_int_ne_empty shutterspeed)
  · exact key (VInt brightness) hb (strLower_int_ne_empty brightness)

/-- Concrete instance of `c10_missing_field_compared_as_empty`: the device
report carries only the exposure mode and omits `ExposureIris`. -/
theorem c10_witness :
    ∃ sv, dget "iris" (recordIntent (get_camera_settings 5 3 100 50)) = some sv ∧
      ("iris", (⟨strLower (valToStr sv), ""⟩ : MismatchPair)) ∈
        computeMismatches (recordIntent (get_camera_settings 5 3 100 50))
          [("ExposureMode", Val.VStr "manual")] ∧
      dget "last_status"
        (applyRecord (recordIntent (get_camera_settings 5 3 100 50))
          [("ExposureMode", Val.VStr "manual")]) =
      some (Val.VStr "mismatch") :=
  c10_missing_field_compared_as_empty 5 3 100 50
    [("ExposureMode", Val.VStr "manual")] ("ExposureIris", "iris")
    (by decide) (by decide)

/-! ### Immutability of the recorded configuration (C3) -/

/-- Every payload published on the command topic during one run agrees
with the starting record on any key that propagates unchanged through the
status writes. -/
theorem loopGo_cmds_agree {k : String} (hk : k ≠ "last_status")
    (confirmable : Bool) (cam : String) (m : Nat)
    (replies : Nat → Option Reply) (rec0 : Record) :
    ∀ (fuel rc : Nat) (rec : Record), dget k rec = dget k rec0 →
      ∀ c ∈ (loopGo confirmable cam m replies rec rc fuel).cmds,
        dget k c = dget k rec0 := by
  intro fuel
  induction fuel with
  | zero => intro rc rec h c hc; simp [loopGo] at hc
  | succ fuel ih =>
    intro rc rec h c hc
    cases confirmable with
    | false =>
      simp only [loopGo, Bool.false_eq_true, if_false, List.mem_singleton] at hc
      subst hc; exact h
    | true =>
      cases hrep : replies rc with
      | none =>
        simp only [loopGo, hrep, if_true] at hc
        by_cases hcs : checkSuccess rec = true
        · simp only [hcs, if_true, List.mem_singleton] at hc
          subst hc; exact h
        · rw [Bool.not_eq_true] at hcs
          simp only [hcs, Bool.false_eq_true, if_false] at hc
          rcases List.mem_cons.mp hc with rfl | hmem
          · exact h
          · exact ih (rc + 1) rec h c hmem
      | some r =>
        simp only [loopGo, hrep, if_true] at hc
        have h' : dget k (applyRecord rec r) = dget k rec0 := by
          rw [dget_applyRecord_ne rec r hk]; exact h
        by_cases hcs : checkSuccess (applyRecord rec r) = true
        · simp only [hcs, if_true, List.mem_singleton] at hc
          subst hc; exact h
        · rw [Bool.not_eq_true] at hcs
          simp only [hcs, Bool.false_eq_true, if_false] at hc
          rcases List.mem_cons.mp hc with rfl | hmem
          · exact h
          · exact ih (rc + 1) (applyRecord rec r) h' c hmem

/-- **C3, counterexample.** The inquiry handler does mutate the stored
mapping, and a republished payload can differ from the recorded one: after
camera 2 reports an empty status object, the stored record's
`last_status` entry has changed, and the payload of the second command
publish is not the recorded record. -/
theorem c3_counterexample :
    (handle_camera_inquiry
        [("2", recordIntent (get_camera_settings 5 3 100 50))]
        "caminq.camera2" (some []) 0).1 ≠
      [("2", recordIntent (get_camera_settings 5 3 100 50))] ∧
    (publish_batch_messages "colour-control.camera2"
        (recordIntent (get_camera_settings 5 3 100 50))
        (fun _ => some []) 2).cmds.get? 1 ≠
      some (recordIntent (get_camera_settings 5 3 100 50)) := by decide

/-- **C3, amended.** The configuration entries of the stored record are
never mutated: every key other than `last_status` is preserved by the
inquiry handler's outcome update, and every payload published on the
command topic agrees with the recorded record on every key other than
`last_status`. -/
theorem c3_amended_config_entries_immutable
    {k : String} (hk : k ≠ "last_status") :
    (∀ (rec : Record) (r : Reply), dget k (applyRecord rec r) = dget k rec) ∧
    (∀ (topic : String) (rec0 : Record) (replies : Nat → Option Reply)
       (m : Nat) (c : Record),
       c ∈ (publish_batch_messages topic rec0 replies m).cmds →
       dget k c = dget k rec0) := by
  refine ⟨fun rec r => dget_applyRecord_ne rec r hk, ?_⟩
  intro topic rec0 replies m c hc
  simp only [publish_batch_messages] at hc
  exact loopGo_cmds_agree hk _ _ m replies rec0 m 0 rec0 rfl c hc

/-- Concrete instance of `c3_amended_config_entries_immutable` at the
`iris` key. -/
theorem c3_amended_witness :
    dget "iris" (applyRecord (recordIntent (get_camera_settings 5 3 100 50)) []) =
      dget "iris" (recordIntent (get_camera_settings 5 3 100 50)) :=
  (c3_amended_config_entries_immutable (by decide)).1
    (recordIntent (get_camera_settings 5 3 100 50)) []

/-! ### Progress-notification accounting (C4) -/

/-- **C4, counterexample.** With two attempts and no reply ever arriving,
the run emits two intermediate not-confirmed notifications — one after
every unsettled attempt including the last — not `maxAttempts - 1 = 1` as
claimed. -/
theorem c4_counterexample :
    (publish_batch_messages "colour-control.camera1"
        (recordIntent (get_camera_settings 5 3 100 50))
        (fun _ => none) 2).notifs.countP
      (fun n => n.kind == NotifKind.progress) ≠ 2 - 1 := by decide

/-- **C4, amended.** An intermediate not-confirmed notification is emitted
after every attempt that did not settle, whether or not attempts remain:
in a run where no attempt settles, exactly `maxAttempts` intermediate
notifications are emitted. -/
theorem c4_amended_progress_notification_count
    (topic : String) (rec0 : Record) (replies : Nat → Option Reply) (m : Nat)
    (hconf : pyIn "colour-control" topic = true)
    (hst : dget "last_status" rec0 = some (VStr "pending"))
    (H : ∀ i r, replies i = some r → computeMismatches rec0 r ≠ []) :
    (publish_batch_messages topic rec0 replies m).notifs.countP
      (fun n => n.kind == NotifKind.progress) = m := by
  have hst' : dget "last_status" rec0 ≠ some (VStr "success") := by
    rw [hst]; simp
  obtain ⟨h1, h2, h3, h4⟩ :=
    loopGo_never_success (camFromTopic topic) m replies rec0 H m 0 rec0
      (fun p _ => rfl) hst'
  have hall : (loopGo true (camFromTopic topic) m replies rec0 0 m).notifs.countP
      (fun n => n.kind == NotifKind.progress) =
      (loopGo true (camFromTopic topic) m replies rec0 0 m).notifs.length :=
    List.countP_eq_length.mpr fun n hn => by rw [h4 n hn]; rfl
  simp only [publish_batch_messages, hconf, if_true]
  rw [List.countP_append, List.countP_append, hall, h3]
  simp [List.countP_cons, sendingNotif, finalNotif]

/-- Concrete instance of `c4_amended_progress_notification_count`: three
attempts, the device reporting an empty status object each time. -/
theorem c4_amended_witness :
    (publish_batch_messages "colour-control.camera2"
        (recordIntent (get_camera_settings 5 3 100 50))
        (fun _ => some []) 3).notifs.countP
      (fun n => n.kind == NotifKind.progress) = 3 :=
  c4_amended_progress_notification_count "colour-control.camera2"
    (recordIntent (get_camera_settings 5 3 100 50)) (fun _ => some []) 3
    (by decide) (by decide)
    (fun i r h => by
      obtain rfl : ([] : Reply) = r := Option.some.inj h
      decide)

/-! ### Mismatch comparison (C5) -/

/-- **C5, counterexample.** A reply reporting the field name `Iris` (not
the translated `ExposureIris`) against sent `iris = 5` does produce a
mismatch entry for `iris`: the field-name lookup is exact, so the reported
value defaults to the empty string. -/
theorem c5_counterexample :
    ("iris", (⟨"5", ""⟩ : MismatchPair)) ∈
      computeMismatches (recordIntent (get_camera_settings 5 3 100 50))
        [("Iris", Val.VInt 5)] := by decide

/-- **C5, amended.** Over the fixed translation table the mismatch
computation is order-independent in the reply (only field lookups matter)
and compares values as lowercased strings: a reply reporting
`ExposureIris = 5` against sent `iris = 5` produces no mismatch entry for
`iris`; sent `iris = 5` with reported `ExposureIris = "6"` produces the
entry `sent "5", received "6"`; and a value differing only in case does
not mismatch. -/
theorem c5_amended_mismatch_comparison
    (rec : Record) (r₁ r₂ : Reply) (h : ∀ k, dget k r₁ = dget k r₂) :
    computeMismatches rec r₁ = computeMismatches rec r₂ ∧
    (∀ p ∈ computeMismatches (recordIntent (get_camera_settings 5 3 100 50))
        [("ExposureIris", Val.VInt 5)], p.1 ≠ "iris") ∧
    ("iris", (⟨"5", "6"⟩ : MismatchPair)) ∈
      computeMismatches (recordIntent (get_camera_settings 5 3 100 50))
        [("ExposureIris", Val.VStr "6")] ∧
    computeMismatches [("exposuremode", Val.VStr "Manual")]
        [("ExposureMode", Val.VStr "MANUAL")] = [] :=
  ⟨computeMismatches_congr_reply rec fun p _ => h p.1,
   by decide, by decide, by decide⟩

/-- Concrete instance of `c5_amended_mismatch_comparison`: two orderings
of the same two-field reply. -/
theorem c5_amended_witness :
    computeMismatches (recordIntent (get_camera_settings 5 3 100 50))
        [("ExposureIris", Val.VInt 5), ("ExposureGain", Val.VInt 3)] =
      computeMismatches (recordIntent (get_camera_settings 5 3 100 50))
        [("ExposureGain", Val.VInt 3), ("ExposureIris", Val.VInt 5)] ∧
    (∀ p ∈ computeMismatches (recordIntent (get_camera_settings 5 3 100 50))
        [("ExposureIris", Val.VInt 5)], p.1 ≠ "iris") ∧
    ("iris", (⟨"5", "6"⟩ : MismatchPair)) ∈
      computeMismatches (recordIntent (get_camera_settings 5 3 100 50))
        [("ExposureIris", Val.VStr "6")] ∧
    computeMismatches [("exposuremode", Val.VStr "Manual")]
        [("ExposureMode", Val.VStr "MANUAL")] = [] :=
  c5_amended_mismatch_comparison
    (recordIntent (get_camera_settings 5 3 100 50))
    [("ExposureIris", Val.VInt 5), ("ExposureGain", Val.VInt 3)]
    [("ExposureGain", Val.VInt 3), ("ExposureIris", Val.VInt 5)]
    (fun k => by
      by_cases h1 : ("ExposureIris" == k) = true
      · have e1 : "ExposureIris" = k := by simpa [beq_iff_eq] using h1
        subst e1; decide
      · by_cases h2 : ("ExposureGain" == k) = true
        · have e2 : "ExposureGain" = k := by simpa [beq_iff_eq] using h2
          subst e2; decide
        · simp [dget, h1, h2])

end MagicSlider
